import Mathlib

/-!
Verification of `birdwatcher.go` (digitalocean/birdwatcher), the composition
root of an HTTP gateway over a routing-daemon query backend.

The Go source is shallowly embedded:
* `isModuleEnabled` and `makeRouter` are translated directly from the source.
* The router produced by `makeRouter` is modelled as the ordered list of
  `(method, path, handler)` registrations performed on the `httprouter.Router`;
  the dispatch behaviour of the external `httprouter` collaborator (first
  matching pattern wins, `:name` segments are wildcards) is modelled from the
  spec, as its code is not part of this repository.
* `main`'s startup sequence is embedded as `runMain`, a pure function from the
  parsed flags, the configuration-load result, and the initial state of the
  collaborator packages' globals, to the trace of startup events and the final
  global state.
* `MyLogger.Write` is embedded with the underlying `log.Logger` modelled as the
  list of byte payloads handed to its `Print` method.
-/

/-- Version string from the source (maintained by `versionize`). -/
def VERSION : String := "1.11.2"

/-- Handler identities for the endpoint handlers referenced by `makeRouter`
(`endpoints.Version VERSION`, `endpoints.Endpoint endpoints.Status`, ...). -/
inductive Handler where
  | Version
  | Status
  | Protocols
  | Bgp
  | Symbols
  | SymbolTables
  | SymbolProtocols
  | ProtoRoutes
  | TableRoutes
  | ProtoCount
  | TableCount
  | RoutesFiltered
  | RoutesNoExport
  | RoutesPrefixed
  | RouteNet
  | RouteNetTable
  | RoutesPeer
  | RoutesDump
  deriving DecidableEq, Repr

/-- One registration `r.GET(path, handler)` on the router. -/
structure Route where
  method : String
  path : String
  handler : Handler
  deriving DecidableEq, Repr

/-- `endpoints.ServerConfig`, as consumed by this component. -/
structure ServerConfig where
  ModulesEnabled : List String
  AllowFrom : List String
  EnableTLS : Bool
  Crt : String
  Key : String
  deriving DecidableEq, Repr

/-- `bird.BirdConfig`: backend command, listen address, cache TTL. -/
structure BirdConfig where
  BirdCmd : String
  Listen : String
  CacheTtl : Nat
  deriving DecidableEq, Repr

/-- The status-section configuration, consumed only by the `bird`
collaborator; its fields are irrelevant to this component, which merely
forwards the value. -/
structure StatusConfig where
  deriving DecidableEq, Repr

/-- The rate-limit-section configuration, consumed only by the `bird`
collaborator; forwarded verbatim by this component. -/
structure RatelimitConfig where
  deriving DecidableEq, Repr

/-- The parser-section configuration (`conf.Parser`), consumed by the `bird`
collaborator; `PerPeerTables` is the field this file's source reads (for
service-info logging). -/
structure ParserConfig where
  PerPeerTables : Bool
  deriving DecidableEq, Repr

/-- The loaded configuration (`conf` in `main`), with the sections this
component reads or forwards. -/
structure Config where
  Server : ServerConfig
  Bird : BirdConfig
  Bird6 : BirdConfig
  Status : StatusConfig
  Ratelimit : RatelimitConfig
  Parser : ParserConfig
  deriving DecidableEq, Repr

/-- `isModuleEnabled` from the source: linear scan of the whitelist with an
early return on an exact string match. -/
def isModuleEnabled (module : String) (modulesEnabled : List String) : Bool :=
  match modulesEnabled with
  | [] => false
  | enabled :: rest =>
      if enabled == module then true else isModuleEnabled module rest

/-- `makeRouter` from the source: the sequence of conditional `r.GET`
registrations, one `if isModuleEnabled ...` block per module, in source
order.  The router value is the ordered list of registrations. -/
def makeRouter (config : ServerConfig) : List Route :=
  let whitelist := config.ModulesEnabled
  (if isModuleEnabled "status" whitelist then
    [⟨"GET", "/version", .Version⟩, ⟨"GET", "/status", .Status⟩] else [])
  ++ (if isModuleEnabled "protocols" whitelist then
    [⟨"GET", "/protocols", .Protocols⟩] else [])
  ++ (if isModuleEnabled "protocols_bgp" whitelist then
    [⟨"GET", "/protocols/bgp", .Bgp⟩] else [])
  ++ (if isModuleEnabled "symbols" whitelist then
    [⟨"GET", "/symbols", .Symbols⟩] else [])
  ++ (if isModuleEnabled "symbols_tables" whitelist then
    [⟨"GET", "/symbols/tables", .SymbolTables⟩] else [])
  ++ (if isModuleEnabled "symbols_protocols" whitelist then
    [⟨"GET", "/symbols/protocols", .SymbolProtocols⟩] else [])
  ++ (if isModuleEnabled "routes_protocol" whitelist then
    [⟨"GET", "/routes/protocol/:protocol", .ProtoRoutes⟩] else [])
  ++ (if isModuleEnabled "routes_table" whitelist then
    [⟨"GET", "/routes/table/:table", .TableRoutes⟩] else [])
  ++ (if isModuleEnabled "routes_count_protocol" whitelist then
    [⟨"GET", "/routes/count/protocol/:protocol", .ProtoCount⟩] else [])
  ++ (if isModuleEnabled "routes_count_table" whitelist then
    [⟨"GET", "/routes/count/table/:table", .TableCount⟩] else [])
  ++ (if isModuleEnabled "routes_filtered" whitelist then
    [⟨"GET", "/routes/filtered/:protocol", .RoutesFiltered⟩] else [])
  ++ (if isModuleEnabled "routes_noexport" whitelist then
    [⟨"GET", "/routes/noexport/:protocol", .RoutesNoExport⟩] else [])
  ++ (if isModuleEnabled "routes_prefixed" whitelist then
    [⟨"GET", "/routes/prefix", .RoutesPrefixed⟩] else [])
  ++ (if isModuleEnabled "route_net" whitelist then
    [⟨"GET", "/route/net/:net", .RouteNet⟩,
     ⟨"GET", "/route/net/:net/table/:table", .RouteNetTable⟩] else [])
  ++ (if isModuleEnabled "routes_peer" whitelist then
    [⟨"GET", "/routes/peer", .RoutesPeer⟩] else [])
  ++ (if isModuleEnabled "routes_dump" whitelist then
    [⟨"GET", "/routes/dump", .RoutesDump⟩] else [])

/-- A row of the fixed routes table: owning module plus the registration it
causes. -/
structure TableEntry where
  module : String
  method : String
  path : String
  handler : Handler
  deriving DecidableEq, Repr

/-- The registration a table row causes. -/
def TableEntry.route (e : TableEntry) : Route :=
  ⟨e.method, e.path, e.handler⟩

/-- The fixed routes table of `makeRouter`, grouped by owning module, listing
every registration together with the module guarding it, in source order. -/
def routesTable : List TableEntry :=
  [⟨"status", "GET", "/version", .Version⟩,
   ⟨"status", "GET", "/status", .Status⟩]
  ++ [⟨"protocols", "GET", "/protocols", .Protocols⟩]
  ++ [⟨"protocols_bgp", "GET", "/protocols/bgp", .Bgp⟩]
  ++ [⟨"symbols", "GET", "/symbols", .Symbols⟩]
  ++ [⟨"symbols_tables", "GET", "/symbols/tables", .SymbolTables⟩]
  ++ [⟨"symbols_protocols", "GET", "/symbols/protocols", .SymbolProtocols⟩]
  ++ [⟨"routes_protocol", "GET", "/routes/protocol/:protocol", .ProtoRoutes⟩]
  ++ [⟨"routes_table", "GET", "/routes/table/:table", .TableRoutes⟩]
  ++ [⟨"routes_count_protocol", "GET", "/routes/count/protocol/:protocol",
        .ProtoCount⟩]
  ++ [⟨"routes_count_table", "GET", "/routes/count/table/:table", .TableCount⟩]
  ++ [⟨"routes_filtered", "GET", "/routes/filtered/:protocol", .RoutesFiltered⟩]
  ++ [⟨"routes_noexport", "GET", "/routes/noexport/:protocol", .RoutesNoExport⟩]
  ++ [⟨"routes_prefixed", "GET", "/routes/prefix", .RoutesPrefixed⟩]
  ++ [⟨"route_net", "GET", "/route/net/:net", .RouteNet⟩,
      ⟨"route_net", "GET", "/route/net/:net/table/:table", .RouteNetTable⟩]
  ++ [⟨"routes_peer", "GET", "/routes/peer", .RoutesPeer⟩]
  ++ [⟨"routes_dump", "GET", "/routes/dump", .RoutesDump⟩]

/-- The module names `makeRouter` consults, in source order. -/
def knownModules : List String :=
  ["status", "protocols", "protocols_bgp", "symbols", "symbols_tables",
   "symbols_protocols", "routes_protocol", "routes_table",
   "routes_count_protocol", "routes_count_table", "routes_filtered",
   "routes_noexport", "routes_prefixed", "route_net", "routes_peer",
   "routes_dump"]

/-- Modelled from the spec: the external `httprouter` collaborator's path
segmentation — splitting a character list on `/`. -/
def splitSegs : List Char → List Char → List (List Char)
  | [], acc => [acc.reverse]
  | c :: cs, acc =>
      if c = '/' then acc.reverse :: splitSegs cs []
      else splitSegs cs (c :: acc)

/-- Modelled from the spec: a pattern segment starting with `:` is a named
placeholder matching any single request segment. -/
def isWildcard : List Char → Bool
  | ':' :: _ => true
  | _ => false

/-- Modelled from the spec: segment-wise pattern matching — equal segment
count, each pattern segment either a placeholder or byte-equal to the request
segment. -/
def segsMatch : List (List Char) → List (List Char) → Bool
  | [], [] => true
  | p :: ps, s :: ss => (isWildcard p || p == s) && segsMatch ps ss
  | _, _ => false

/-- Modelled from the spec: whether a registered route matches a request
(method equality plus path-pattern matching). -/
def routeMatches (r : Route) (method path : String) : Bool :=
  r.method == method &&
    segsMatch (splitSegs r.path.data []) (splitSegs path.data [])

/-- Modelled from the spec: the router dispatches a request to the handler of
the first matching registration, or reports not-found (`none`). -/
def dispatch (routes : List Route) (method path : String) : Option Handler :=
  (routes.find? fun r => routeMatches r method path).map Route.handler

/-- The underlying `log.Logger` of `MyLogger`, modelled as the ordered list of
byte payloads handed to its `Print` method. -/
structure UnderlyingLogger where
  printed : List (List UInt8)
  deriving DecidableEq, Repr

/-- `MyLogger` from the source: a wrapper around a `log.Logger`. -/
structure MyLogger where
  logger : UnderlyingLogger
  deriving DecidableEq, Repr

/-- `MyLogger.Write` from the source:
`m.logger.Print(string(p)); return len(p), nil`.  `string(p)` preserves the
bytes of `p`, so `Print` receives exactly those bytes, once.  The Go `error`
result is modelled as `Option String` with `none` for `nil`. -/
def MyLogger.Write (m : MyLogger) (p : List UInt8) :
    MyLogger × Nat × Option String :=
  ({ logger := { printed := m.logger.printed ++ [p] } }, p.length, none)

/-- Observable startup events of `main`, in the order they occur. -/
inductive Event where
  | configLoaded
  | tlsValidate
  | routerBuilt
  | bindPlain (listen : String)
  | bindTLS (listen crt key : String)
  | fatal
  deriving DecidableEq, Repr

/-- Whether an event is a listener bind attempt (`http.ListenAndServe` or
`http.ListenAndServeTLS`). -/
def Event.isBind : Event → Bool
  | .bindPlain _ => true
  | .bindTLS _ _ _ => true
  | _ => false

/-- The listen address of a bind event, if any. -/
def Event.bindListen : Event → Option String
  | .bindPlain l => some l
  | .bindTLS l _ _ => some l
  | _ => none

/-- The TLS-material validation from the source, used identically at both of
its occurrences: TLS is enabled but the certificate path or the key path is
empty. -/
def tlsMaterialMissing (s : ServerConfig) : Bool :=
  s.EnableTLS && (s.Crt.length == 0 || s.Key.length == 0)

/-- Process-wide collaborator-package state (`bird.*`, `endpoints.*`) that
`main` assigns to. -/
structure Globals where
  WorkerPoolSize : Int
  IPVersion : String
  ClientConf : BirdConfig
  StatusConf : StatusConfig
  RateLimitConf : RatelimitConfig
  ParserConf : ParserConfig
  EndpointsConf : ServerConfig
  EndpointsVersion : String
  deriving DecidableEq, Repr

/-- `main` from the source, embedded as a pure function of the parsed flags
(`-6`, `-worker-pool-size`), the result of `LoadConfigs` (whose own code is
outside this file), and the initial collaborator globals.  It yields the
trace of startup events and the final globals.  `log.Fatal*` terminates the
process, so each fatal path ends its trace with `Event.fatal` and performs
nothing further.  Logging-only calls (`PrintServiceInfo`, the query-logger
setup) change no modelled state and produce no event. -/
def runMain (bird6 : Bool) (workerPoolSize : Int)
    (configLoad : Except String Config) (g0 : Globals) :
    List Event × Globals :=
  let g := { g0 with WorkerPoolSize := workerPoolSize }
  match configLoad with
  | .error _ => ([Event.fatal], g)
  | .ok conf =>
    if tlsMaterialMissing conf.Server then
      ([Event.configLoaded, Event.tlsValidate, Event.fatal], g)
    else
      let g := { g with EndpointsVersion := VERSION }
      let birdConf := if bird6 then conf.Bird6 else conf.Bird
      let g := if bird6 then { g with IPVersion := "6" } else g
      let g := { g with
        ClientConf := birdConf
        StatusConf := conf.Status
        RateLimitConf := conf.Ratelimit
        ParserConf := conf.Parser
        EndpointsConf := conf.Server }
      let _router := makeRouter conf.Server
      if tlsMaterialMissing conf.Server then
        ([Event.configLoaded, Event.tlsValidate, Event.routerBuilt,
          Event.tlsValidate, Event.fatal], g)
      else if conf.Server.EnableTLS then
        ([Event.configLoaded, Event.tlsValidate, Event.routerBuilt,
          Event.tlsValidate,
          Event.bindTLS birdConf.Listen conf.Server.Crt conf.Server.Key], g)
      else
        ([Event.configLoaded, Event.tlsValidate, Event.routerBuilt,
          Event.tlsValidate, Event.bindPlain birdConf.Listen], g)

/-- Concrete sample data for witnesses. -/
def sampleBird : BirdConfig := ⟨"birdc", ":29184", 5⟩

/-- Concrete sample data for witnesses. -/
def sampleBird6 : BirdConfig := ⟨"birdc6", ":29186", 5⟩

/-- Concrete sample server configuration (TLS disabled). -/
def sampleServer : ServerConfig := ⟨["status", "routes_peer"], [], false, "", ""⟩

/-- Concrete sample server configuration with TLS enabled but no key path. -/
def sampleServerNoKey : ServerConfig :=
  ⟨["status"], [], true, "/etc/birdwatcher/tls.crt", ""⟩

/-- Concrete sample loaded configuration (TLS disabled). -/
def sampleConfig : Config :=
  ⟨sampleServer, sampleBird, sampleBird6, ⟨⟩, ⟨⟩, ⟨true⟩⟩

/-- Concrete sample loaded configuration with incomplete TLS material. -/
def sampleConfigNoKey : Config :=
  ⟨sampleServerNoKey, sampleBird, sampleBird6, ⟨⟩, ⟨⟩, ⟨true⟩⟩

/-- Concrete sample initial collaborator globals. -/
def sampleGlobals : Globals :=
  ⟨8, "4", sampleBird, ⟨⟩, ⟨⟩, ⟨false⟩, sampleServer, ""⟩

/-- Helper: filtering a single-row table segment by module enabledness. -/
theorem filter_single (wl : List String) (m meth pa : String) (h : Handler) :
    (([⟨m, meth, pa, h⟩] : List TableEntry).filter fun x =>
        isModuleEnabled x.module wl).map TableEntry.route =
      if isModuleEnabled m wl then [⟨meth, pa, h⟩] else [] := by
  cases hb : isModuleEnabled m wl <;> simp [List.filter, TableEntry.route, hb]

/-- Helper: filtering a two-row table segment owned by one module. -/
theorem filter_pair (wl : List String) (m meth1 p1 meth2 p2 : String)
    (h1 h2 : Handler) :
    (([⟨m, meth1, p1, h1⟩, ⟨m, meth2, p2, h2⟩] : List TableEntry).filter fun x =>
        isModuleEnabled x.module wl).map TableEntry.route =
      if isModuleEnabled m wl then [⟨meth1, p1, h1⟩, ⟨meth2, p2, h2⟩] else [] := by
  cases hb : isModuleEnabled m wl <;> simp [List.filter, TableEntry.route, hb]

/-- Helper: `makeRouter` registers exactly the rows of the fixed table whose
owning module is enabled, in table order. -/
theorem makeRouter_eq_filter (cfg : ServerConfig) :
    makeRouter cfg =
      (routesTable.filter fun e =>
        isModuleEnabled e.module cfg.ModulesEnabled).map TableEntry.route := by
  simp only [routesTable, List.filter_append, List.map_append,
    filter_single, filter_pair, makeRouter]

/-- Helper: the fixed table's patterns do not overlap — a registration matches
a table row's method and path only if it is that row's own registration. -/
theorem routes_no_overlap : ∀ y ∈ routesTable, ∀ e ∈ routesTable,
    routeMatches y.route e.method e.path = true → y = e := by decide

/-- Helper: every table row's registration matches its own method and path. -/
theorem routes_self_match :
    ∀ e ∈ routesTable, routeMatches e.route e.method e.path = true := by decide

/-- Helper: `find?` returns the unique element satisfying the predicate. -/
theorem find?_unique {α : Type} (p : α → Bool) (l : List α) (e : α)
    (he : e ∈ l) (hpe : p e = true)
    (huniq : ∀ x ∈ l, p x = true → x = e) :
    l.find? p = some e := by
  induction l with
  | nil => cases he
  | cons a t ih =>
      rw [List.find?_cons]
      cases hpa : p a with
      | true =>
          have ha := huniq a (List.mem_cons_self a t) hpa
          simp [ha]
      | false =>
          have he' : e ∈ t := by
            rcases List.mem_cons.mp he with h | h
            · subst h; rw [hpe] at hpa; cases hpa
            · exact h
          exact ih he' fun x hx hpx => huniq x (List.mem_cons_of_mem a hx) hpx

/-- Helper: the whitelist scan decides list membership. -/
theorem isModuleEnabled_eq_decide (module : String) (wl : List String) :
    isModuleEnabled module wl = decide (module ∈ wl) := by
  induction wl with
  | nil => rfl
  | cons a t ih =>
      by_cases h : a = module
      · simp [isModuleEnabled, h]
      · simp [isModuleEnabled, h, ih, Ne.symm h]

/-- Helper: `makeRouter` depends on the whitelist only through the
enabledness of the sixteen known module names. -/
theorem makeRouter_congr (cfg cfg' : ServerConfig)
    (h : ∀ m ∈ knownModules,
      isModuleEnabled m cfg.ModulesEnabled = isModuleEnabled m cfg'.ModulesEnabled) :
    makeRouter cfg = makeRouter cfg' := by
  simp only [makeRouter]
  rw [h "status" (by decide), h "protocols" (by decide),
    h "protocols_bgp" (by decide), h "symbols" (by decide),
    h "symbols_tables" (by decide), h "symbols_protocols" (by decide),
    h "routes_protocol" (by decide), h "routes_table" (by decide),
    h "routes_count_protocol" (by decide), h "routes_count_table" (by decide),
    h "routes_filtered" (by decide), h "routes_noexport" (by decide),
    h "routes_prefixed" (by decide), h "route_net" (by decide),
    h "routes_peer" (by decide), h "routes_dump" (by decide)]

/-- C1: for every whitelist and every row of the fixed routes table, the
router built by `makeRouter` dispatches a request for that row's method and
path to the row's handler when the owning module is whitelisted, and responds
not-found (`none`) when it is not. -/
theorem dispatch_respects_whitelist (cfg : ServerConfig) (e : TableEntry)
    (he : e ∈ routesTable) :
    dispatch (makeRouter cfg) e.method e.path =
      if isModuleEnabled e.module cfg.ModulesEnabled then some e.handler
      else none := by
  rw [dispatch, makeRouter_eq_filter]
  cases hb : isModuleEnabled e.module cfg.ModulesEnabled with
  | false =>
      rw [if_neg (by simp [hb])]
      have hnone : ((routesTable.filter fun x =>
          isModuleEnabled x.module cfg.ModulesEnabled).map TableEntry.route).find?
            (fun r => routeMatches r e.method e.path) = none := by
        rw [List.find?_eq_none]
        intro x hx hmatch
        obtain ⟨y, hy, rfl⟩ := List.mem_map.mp hx
        have hy' := List.mem_filter.mp hy
        have hye := routes_no_overlap y hy'.1 e he hmatch
        subst hye
        rw [hb] at hy'
        cases hy'.2
      rw [hnone]
      rfl
  | true =>
      rw [if_pos (by simp [hb])]
      have hmem : e.route ∈ (routesTable.filter fun x =>
          isModuleEnabled x.module cfg.ModulesEnabled).map TableEntry.route :=
        List.mem_map_of_mem _ (List.mem_filter.mpr ⟨he, by rw [hb]⟩)
      have hfind := find?_unique (fun r => routeMatches r e.method e.path) _
        e.route hmem (routes_self_match e he) ?huniq
      · rw [hfind]; rfl
      case huniq =>
        intro x hx hpx
        obtain ⟨y, hy, rfl⟩ := List.mem_map.mp hx
        have hy' := List.mem_filter.mp hy
        rw [routes_no_overlap y hy'.1 e he hpx]

/-- Witness for C1 at a concrete whitelist and table row: with module
`status` enabled, `GET /version` dispatches to the version handler. -/
theorem dispatch_respects_whitelist_witness :
    dispatch (makeRouter sampleServer) "GET" "/version" = some Handler.Version := by
  have h := dispatch_respects_whitelist sampleServer
    ⟨"status", "GET", "/version", Handler.Version⟩ (by decide)
  rwa [if_pos (by decide)] at h

/-- C2: with TLS enabled and an empty certificate or key path, startup ends
in the fatal-log-and-exit path before any listener bind is attempted. -/
theorem tls_missing_aborts_before_bind (bird6 : Bool) (wps : Int)
    (conf : Config) (g : Globals) (hTLS : conf.Server.EnableTLS = true)
    (hMissing : conf.Server.Crt = "" ∨ conf.Server.Key = "") :
    (∀ e ∈ (runMain bird6 wps (Except.ok conf) g).1, e.isBind = false) ∧
      (runMain bird6 wps (Except.ok conf) g).1.getLast? = some Event.fatal := by
  have hmiss : tlsMaterialMissing conf.Server = true := by
    rcases hMissing with h | h <;> simp [tlsMaterialMissing, hTLS, h]
  constructor
  · intro e he
    simp only [runMain, hmiss, if_true, List.mem_cons, List.not_mem_nil,
      or_false] at he
    rcases he with rfl | rfl | rfl <;> rfl
  · simp [runMain, hmiss]

/-- Witness for C2 at a concrete configuration with TLS enabled and an empty
key path. -/
theorem tls_missing_aborts_before_bind_witness :
    (∀ e ∈ (runMain false 8 (Except.ok sampleConfigNoKey) sampleGlobals).1,
        e.isBind = false) ∧
      (runMain false 8 (Except.ok sampleConfigNoKey) sampleGlobals).1.getLast?
        = some Event.fatal :=
  tls_missing_aborts_before_bind false 8 sampleConfigNoKey sampleGlobals
    rfl (Or.inr rfl)

/-- C3: `MyLogger.Write` returns the input's byte length and no error, and
hands exactly the bytes of `p`, exactly once, to the underlying logger. -/
theorem myLogger_write_spec (m : MyLogger) (p : List UInt8) :
    (m.Write p).2.1 = p.length ∧ (m.Write p).2.2 = none ∧
      (m.Write p).1.logger.printed = m.logger.printed ++ [p] :=
  ⟨rfl, rfl, rfl⟩

/-- C4: `isModuleEnabled` is exact, case-sensitive membership of the module
name in the whitelist; in particular entry `Status` does not enable module
`status`. -/
theorem isModuleEnabled_exact_membership (module : String) (wl : List String) :
    (isModuleEnabled module wl = true ↔ module ∈ wl) ∧
      isModuleEnabled "status" ["Status"] = false := by
  refine ⟨?_, by decide⟩
  simp [isModuleEnabled_eq_decide]

/-- C5: a whitelist with a module name occurring twice builds exactly the
router of the whitelist with one occurrence removed, and the built router
registers each route at most once. -/
theorem duplicate_whitelist_idempotent (cfg : ServerConfig) (m : String)
    (S₁ S₂ S₃ : List String) :
    makeRouter { cfg with ModulesEnabled := S₁ ++ (m :: (S₂ ++ (m :: S₃))) } =
      makeRouter { cfg with ModulesEnabled := S₁ ++ (m :: (S₂ ++ S₃)) } ∧
    (makeRouter { cfg with ModulesEnabled :=
        S₁ ++ (m :: (S₂ ++ (m :: S₃))) }).Nodup := by
  constructor
  · apply makeRouter_congr
    intro x _
    simp only [isModuleEnabled_eq_decide]
    apply decide_eq_decide.mpr
    simp only [List.mem_append, List.mem_cons]
    tauto
  · rw [makeRouter_eq_filter]
    have hsub := (List.filter_sublist (p := fun e =>
      isModuleEnabled e.module (S₁ ++ (m :: (S₂ ++ (m :: S₃)))))
      (l := routesTable)).map TableEntry.route
    have hnodup : (routesTable.map TableEntry.route).Nodup := by decide
    exact hnodup.sublist hsub

/-- C6: the `-6` flag selects the `Bird6` configuration and sets the
process-wide address-family tag to `6`; without it the `Bird` configuration
is selected.  The selected configuration is stored as the backend client
configuration and its listen address is the one used by the bind. -/
theorem backend_selection_by_flag (bird6 : Bool) (wps : Int) (conf : Config)
    (g : Globals) (hpass : tlsMaterialMissing conf.Server = false) :
    (runMain bird6 wps (Except.ok conf) g).2.ClientConf =
        (if bird6 then conf.Bird6 else conf.Bird) ∧
      (bird6 = true → (runMain bird6 wps (Except.ok conf) g).2.IPVersion = "6") ∧
      (∃ e ∈ (runMain bird6 wps (Except.ok conf) g).1,
        e.bindListen = some (if bird6 then conf.Bird6 else conf.Bird).Listen) := by
  cases bird6 <;> cases htls : conf.Server.EnableTLS <;>
    simp [runMain, hpass, htls, Event.bindListen]

/-- Witness for C6 at a concrete configuration with the `-6` flag set: the
address-family tag is `6` afterwards. -/
theorem backend_selection_by_flag_witness :
    (runMain true 8 (Except.ok sampleConfig) sampleGlobals).2.IPVersion = "6" :=
  (backend_selection_by_flag true 8 sampleConfig sampleGlobals rfl).2.1 rfl

/-- C7: startup reaches a bind only if the TLS-material validation passes,
and in that case the validation has run exactly twice — immediately after
the configuration-loaded event and immediately before the bind event. -/
theorem tls_validated_twice (bird6 : Bool) (wps : Int) (conf : Config)
    (g : Globals) :
    ((∃ e ∈ (runMain bird6 wps (Except.ok conf) g).1, e.isBind = true) →
        tlsMaterialMissing conf.Server = false) ∧
      (tlsMaterialMissing conf.Server = false →
        ∃ e, e.isBind = true ∧
          (runMain bird6 wps (Except.ok conf) g).1 =
            [Event.configLoaded, Event.tlsValidate, Event.routerBuilt,
             Event.tlsValidate, e]) := by
  cases hmiss : tlsMaterialMissing conf.Server
  · constructor
    · intro _
      rfl
    · intro _
      refine ⟨if conf.Server.EnableTLS then
          Event.bindTLS (if bird6 then conf.Bird6 else conf.Bird).Listen
            conf.Server.Crt conf.Server.Key
        else Event.bindPlain (if bird6 then conf.Bird6 else conf.Bird).Listen,
        ?_, ?_⟩
      · cases htls : conf.Server.EnableTLS <;> simp [htls, Event.isBind]
      · cases htls : conf.Server.EnableTLS <;> cases bird6 <;>
          simp [runMain, hmiss, htls]
  · constructor
    · rintro ⟨e, he, hbind⟩
      simp only [runMain, hmiss, if_true, List.mem_cons, List.not_mem_nil,
        or_false] at he
      rcases he with rfl | rfl | rfl <;> cases hbind
    · intro h
      cases h

/-- Witness for C7 at a concrete configuration whose validation passes: the
trace is exactly load, validate, router, validate, bind. -/
theorem tls_validated_twice_witness :
    ∃ e, e.isBind = true ∧
      (runMain false 8 (Except.ok sampleConfig) sampleGlobals).1 =
        [Event.configLoaded, Event.tlsValidate, Event.routerBuilt,
         Event.tlsValidate, e] :=
  (tls_validated_twice false 8 sampleConfig sampleGlobals).2 rfl

/-- C8: a whitelist entry that is not a known module name is inert — removing
it leaves the built router unchanged. -/
theorem unknown_module_inert (cfg : ServerConfig) (u : String)
    (S₁ S₂ : List String) (hu : u ∉ knownModules) :
    makeRouter { cfg with ModulesEnabled := S₁ ++ (u :: S₂) } =
      makeRouter { cfg with ModulesEnabled := S₁ ++ S₂ } := by
  apply makeRouter_congr
  intro x hx
  have hxu : x ≠ u := fun h => hu (h ▸ hx)
  simp only [isModuleEnabled_eq_decide]
  apply decide_eq_decide.mpr
  simp [List.mem_append, List.mem_cons, hxu]

/-- Witness for C8 at a concrete unknown entry `bogus` in front of
`status`. -/
theorem unknown_module_inert_witness :
    makeRouter { sampleServer with ModulesEnabled := [] ++ ("bogus" :: ["status"]) } =
      makeRouter { sampleServer with ModulesEnabled := [] ++ ["status"] } :=
  unknown_module_inert sampleServer "bogus" [] ["status"] (by decide)

/-- C10: without the `-6` flag, no path of the startup sequence writes the
process-wide address-family tag: it keeps its initial value. -/
theorem ipversion_unchanged_without_flag (wps : Int)
    (load : Except String Config) (g : Globals) :
    (runMain false wps load g).2.IPVersion = g.IPVersion := by
  cases load with
  | error e => rfl
  | ok conf =>
      cases hmiss : tlsMaterialMissing conf.Server <;>
        cases htls : conf.Server.EnableTLS <;>
          simp [runMain, hmiss, htls]
